import Mathlib

/-!
Verification of the track-library engine and playback state machine of
`terminal_music_player.py` (TermMusic).

The Python source is shallowly embedded: the track record becomes a
structure, the mutable fields of the `TerminalMusicPlayer` object that the
core operations touch become a `PlayerState` structure, and each method
becomes a state-passing function.  External effects (pygame, the
filesystem, mutagen) are passed in explicitly as data (`Env`, `MFResult`,
`FileSys`), with one alternative per observable outcome of the foreign
call (success, falsy result, raised exception), so that the `try/except`
structure of the source is represented faithfully.  Widget-only effects
(treeview redraws, labels, `save_config`) change no core state and are
omitted.
-/

/-- One audio file's record, as built by `extract_metadata`
(the `track_info` dict in the source). -/
structure Track where
  track : String
  title : String
  artist : String
  album : String
  time : String
  year : String
  genre : String
  bitrate : String
  path : String
deriving Repr, DecidableEq

/-! ### Python string primitives

Python strings are sequences of code points; `String.data` is exactly that
sequence, so substring tests, slices and lowering are embedded through
`List Char` (which the kernel can evaluate). -/

/-- `startsWithL hay pat` : `pat` begins `hay` (list-of-chars form). -/
def startsWithL : List Char → List Char → Bool
  | _, [] => true
  | [], _ :: _ => false
  | a :: as, b :: bs => a == b && startsWithL as bs

/-- `hasSub hay pat` : Python's `pat in hay` substring containment. -/
def hasSub : List Char → List Char → Bool
  | [], pat => startsWithL [] pat
  | a :: t, pat => startsWithL (a :: t) pat || hasSub t pat

/-- Python's `pat in hay` on strings. -/
def containsSub (hay pat : String) : Bool :=
  hasSub hay.data pat.data

/-- Python's `s[a:b]` slice (for `0 ≤ a ≤ b`). -/
def pySlice (s : String) (a b : Nat) : String :=
  ⟨(s.data.drop a).take (b - a)⟩

/-- Python's `s.lower()` (ASCII model), applied code point by code point. -/
def pyLower (s : String) : String :=
  ⟨s.data.map Char.toLower⟩

/-- Python's `s.endswith(pat)`. -/
def endsWithPy (s pat : String) : Bool :=
  startsWithL s.data.reverse pat.data.reverse

/-- Python list indexing `l[i]` with an `int` index: non-negative indices
count from the front, negative indices from the back, and an out-of-range
index raises `IndexError` (modelled as `none`). -/
def pyGet (l : List Track) (i : Int) : Option Track :=
  if 0 ≤ i then l[i.toNat]?
  else if 0 ≤ (l.length : Int) + i then l[((l.length : Int) + i).toNat]?
  else none

/-- `os.path.basename` (POSIX): the part of the path after the last `/`. -/
def basename (p : String) : String :=
  ⟨(p.data.reverse.takeWhile (fun c => c != '/')).reverse⟩

/-- The stem part of `os.path.splitext`: everything before the last dot,
where the leading dots of the name never start an extension
(`".bashrc"` has no extension). -/
def stem_of (name : String) : String :=
  let cs := name.data
  let lead := cs.takeWhile (fun c => c == '.')
  let rest := cs.drop lead.length
  if rest.contains '.' then
    ⟨lead ++ ((rest.reverse.dropWhile (fun c => c != '.')).drop 1).reverse⟩
  else name

/-! ### Filter Engine (`on_search_change`, lines 776–791)

The source lowers the query, returns a copy of the full library when the
lowered query is falsy (i.e. the empty string), and otherwise keeps the
tracks whose lowered title, artist or album contains the query. -/

/-- The track predicate of the list comprehension in `on_search_change`. -/
def matches_search (search_term : String) (t : Track) : Bool :=
  containsSub (pyLower t.title) search_term ||
  containsSub (pyLower t.artist) search_term ||
  containsSub (pyLower t.album) search_term

/-- The pure core of `on_search_change`: from the full library and the
query, the new `filtered_library`. -/
def on_search_change (music_library : List Track) (query : String) : List Track :=
  let search_term := pyLower query
  if search_term = "" then music_library
  else music_library.filter (matches_search search_term)

/-! ### Duration formatting (`extract_metadata`, lines 712–715)

The source formats the integer-second duration with
`str(timedelta(seconds=duration))[2:7]`.  `timedelta.__str__` renders
`H:MM:SS` with the hours unpadded, preceded by `D day(s), ` when at least
one full day is present. -/

/-- A natural number rendered in decimal, zero-padded to two digits
(that is how `timedelta.__str__` renders minutes and seconds). -/
def pad2 (n : Nat) : String :=
  if n < 10 then "0" ++ toString n else toString n

/-- Python's `str(timedelta(seconds = total))` for a non-negative integral
number of seconds. -/
def timedelta_str (total : Nat) : String :=
  let days := total / 86400
  let rem := total % 86400
  let h := rem / 3600
  let m := rem % 3600 / 60
  let s := rem % 60
  let hms := toString h ++ ":" ++ pad2 m ++ ":" ++ pad2 s
  if days = 0 then hms
  else toString days ++ (if days = 1 then " day, " else " days, ") ++ hms

/-- The `time` field computed by `extract_metadata` from an integer
duration: `str(timedelta(seconds=duration))[2:7]`. -/
def format_time (duration : Nat) : String :=
  pySlice (timedelta_str duration) 2 7

/-! ### Metadata Extractor (`extract_metadata`, lines 689–737)

The mutagen call `MF(file_path)` is a foreign effect; its observable
outcomes are enumerated by `MFResult`.  `outerRaised` models an exception
in the outer `try` (the source then returns `None`); `innerRaised` models
an exception raised at the `MF` call or during tag processing (caught by
the inner `except`, so the filename fallback record survives); `noFile`
is `MF` returning `None`; `unavailable` is mutagen not being importable.
Tags are modelled as a key-value list; `audio_file.info.length` is the
truncated integer length, with `0` standing for every falsy length. -/
inductive MFResult where
  | outerRaised
  | unavailable
  | innerRaised
  | noFile
  | file (length : Nat) (tags : Option (List (String × String)))
         (bitrate : Option Nat)
deriving Repr, DecidableEq

/-- Dictionary-style tag lookup: `key in tags` / `tags.get(key)`. -/
def tag_get (tags : List (String × String)) (k : String) : Option String :=
  (tags.find? (fun p => p.1 == k)).map (fun p => p.2)

/-- The `'K1' in tags ... elif 'K2' in tags ... else fallback` chains of
`extract_metadata` (primary ID3 frame key, then generic key, then the
hardcoded default). -/
def tag_field (tags : List (String × String)) (k1 k2 fb : String) : String :=
  match tag_get tags k1 with
  | some v => v
  | none =>
    match tag_get tags k2 with
    | some v => v
    | none => fb

/-- The filename-derived `track_info` dict built at the top of
`extract_metadata`, before any tag reading. -/
def fallback_track (file_path : String) : Track :=
  { track := "", title := stem_of (basename file_path),
    artist := "Unknown Artist", album := "Unknown Album", time := "0:00",
    year := "", genre := "", bitrate := "", path := file_path }

/-- `extract_metadata(file_path)`.  Returns `none` exactly when the outer
`except` fires (the source's `return None`); every failure of the tag
reading itself is contained by the inner `except` and yields the
filename-derived fallback record. -/
def extract_metadata (file_path : String) (mf : MFResult) : Option Track :=
  match mf with
  | .outerRaised => none
  | .unavailable => some (fallback_track file_path)
  | .innerRaised => some (fallback_track file_path)
  | .noFile => some (fallback_track file_path)
  | .file length tags bitrate =>
    let file_name := basename file_path
    let base := fallback_track file_path
    let t1 := if length != 0 then { base with time := format_time length } else base
    let t2 :=
      match tags with
      | some tg =>
        if !tg.isEmpty then
          { t1 with
            title := tag_field tg "TIT2" "TITLE" file_name,
            artist := tag_field tg "TPE1" "ARTIST" "Unknown Artist",
            album := tag_field tg "TALB" "ALBUM" "Unknown Album",
            year := tag_field tg "TDRC" "DATE" "",
            genre := tag_field tg "TCON" "GENRE" "",
            track := tag_field tg "TRCK" "TRACKNUMBER" "" }
        else t1
      | none => t1
    match bitrate with
    | some b => some { t2 with bitrate := toString b }
    | none => some t2

/-! ### Player state and environment -/

/-- The fields of the `TerminalMusicPlayer` object that the core
scanning / filtering / playback operations read or write. -/
structure PlayerState where
  music_library : List Track
  filtered_library : List Track
  current_track : Option Track
  current_track_index : Int
  playing : Bool
  paused : Bool
  volume : Int
  audio_enabled : Bool
deriving Repr, DecidableEq

/-- Outcomes of the pygame backend calls that the player makes.
`fileExists` is `os.path.exists`; `loadPlayOk` is whether
`mixer.music.load` + `play` succeed for a given path; `pauseOk` /
`unpauseOk` are whether `mixer.music.pause` / `unpause` raise. -/
structure Env where
  pygameAvailable : Bool
  fileExists : String → Bool
  loadPlayOk : String → Bool
  pauseOk : Bool
  unpauseOk : Bool

/-- The derived playback status of the spec's state machine, read off the
source's `playing` / `paused` flags. -/
inductive Status where
  | Stopped
  | Playing
  | Paused
deriving Repr, DecidableEq

/-- `Playing` iff the `playing` flag is set and `paused` is not; `Paused`
iff `paused` is set; otherwise `Stopped`. -/
def status (st : PlayerState) : Status :=
  if st.playing && !st.paused then .Playing
  else if st.paused then .Paused
  else .Stopped

/-! ### Playback Controller (`play_track`, lines 817–847) -/

/-- `play_track(track)`: a falsy track is a no-op; otherwise the track
becomes current and, when real audio is possible, a successful backend
load + play (or, failing the file-existence test, the simulation branch)
sets `playing` and clears `paused`.  A backend exception is caught and
leaves the flags untouched. -/
def play_track (st : PlayerState) (track : Option Track) (env : Env) : PlayerState :=
  match track with
  | none => st
  | some t =>
    let st1 := { st with current_track := some t }
    if st1.audio_enabled && env.pygameAvailable && env.fileExists t.path then
      if env.loadPlayOk t.path then
        { st1 with playing := true, paused := false }
      else
        st1
    else
      { st1 with playing := true, paused := false }

/-! ### `toggle_playback` (lines 849–884) -/

/-- `toggle_playback()`.  With no current track, the first filtered track
is played (index 0).  Otherwise, with a real backend: playing → pause,
paused → unpause, else restart the current track through `play_track`;
a raised pause/unpause leaves the state untouched (caught by the
`except`).  Without a real backend the source only flips the `paused`
flag and updates the status line. -/
def toggle_playback (st : PlayerState) (env : Env) : PlayerState :=
  match st.current_track with
  | none =>
    match st.filtered_library with
    | [] => st
    | t :: _ => { play_track st (some t) env with current_track_index := 0 }
  | some ct =>
    if st.audio_enabled && env.pygameAvailable then
      if st.playing && !st.paused then
        if env.pauseOk then { st with paused := true } else st
      else if st.paused then
        if env.unpauseOk then { st with paused := false } else st
      else
        play_track st (some ct) env
    else
      if st.playing && !st.paused then { st with paused := true }
      else { st with paused := false }

/-! ### Navigation (`previous_track` lines 900–914, `next_track`
lines 916–930)

Both return `none` when the list access raises an uncaught `IndexError`
(never the case for the index values the program produces). -/

/-- `next_track()`. -/
def next_track (st : PlayerState) (env : Env) : Option PlayerState :=
  if st.filtered_library.isEmpty then some st
  else
    let idx : Int :=
      if st.current_track_index < (st.filtered_library.length : Int) - 1 then
        st.current_track_index + 1
      else 0
    let st1 := { st with current_track_index := idx }
    match pyGet st1.filtered_library idx with
    | none => none
    | some t => some (play_track st1 (some t) env)

/-- `previous_track()`. -/
def previous_track (st : PlayerState) (env : Env) : Option PlayerState :=
  if st.filtered_library.isEmpty then some st
  else
    let idx : Int :=
      if st.current_track_index > 0 then st.current_track_index - 1
      else (st.filtered_library.length : Int) - 1
    let st1 := { st with current_track_index := idx }
    match pyGet st1.filtered_library idx with
    | none => none
    | some t => some (play_track st1 (some t) env)

/-! ### Volume (`change_volume`, lines 932–943) -/

/-- `change_volume(value)`: stores `int(value)` unconditionally (the
source contains no clamp; the 0–100 range comes only from the Scale
widget), updates the label, forwards `volume / 100.0` to pygame inside a
`try/except`, and saves the config.  Only the stored volume is core
state. -/
def change_volume (st : PlayerState) (value : Int) : PlayerState :=
  { st with volume := value }

/-! ### Display-driven index resolution (`update_track_display`,
lines 739–755)

The treeview rebuild walks `filtered_library` and, for every row whose
path equals the current track's path, overwrites `current_track_index`
with that row number.  When no row matches (or there is no current
track) the old index value survives unchanged. -/

/-- The `for i, track in enumerate(...)` loop of `update_track_display`,
restricted to its effect on `current_track_index`. -/
def resolve_index_go (ct_path : String) : List Track → Int → Int → Int
  | [], _, acc => acc
  | t :: rest, i, acc =>
    resolve_index_go ct_path rest (i + 1) (if t.path == ct_path then i else acc)

/-- `update_track_display()`, restricted to core state. -/
def update_track_display (st : PlayerState) : PlayerState :=
  match st.current_track with
  | none => st
  | some ct =>
    { st with current_track_index :=
        resolve_index_go ct.path st.filtered_library 0 st.current_track_index }

/-- `on_search_change` as a state transition: recompute
`filtered_library` from the full library and the query, then run
`update_track_display` (and the label update, which touches no core
state). -/
def on_search_change_full (st : PlayerState) (query : String) : PlayerState :=
  update_track_display
    { st with filtered_library := on_search_change st.music_library query }

/-! ### Library Scanner (`scan_folder`, lines 664–687) -/

/-- The filesystem as seen by one `scan_folder` call: whether the root
exists, and the full paths handed to `extract_metadata` in `os.walk`
order. -/
structure FileSys where
  root_exists : Bool
  files : List String

/-- The `supported_formats` set of `scan_folder`. -/
def supported_formats : List String :=
  [".mp3", ".flac", ".ogg", ".m4a", ".wav"]

/-- `any(file.lower().endswith(ext) for ext in supported_formats)`. -/
def is_supported (file : String) : Bool :=
  supported_formats.any (fun ext => endsWithPy (pyLower file) ext)

/-- `scan_folder(folder_path)`.  A missing root returns immediately; an
exception escaping the walk (modelled by `walkOk = false`) is caught by
the outer `except` before the library is replaced; otherwise both
libraries are replaced wholesale by the surviving extraction results and
the display is rebuilt.  `mfOf` gives each file's mutagen outcome. -/
def scan_folder (st : PlayerState) (fs : FileSys) (mfOf : String → MFResult)
    (walkOk : Bool) : PlayerState :=
  if !fs.root_exists then st
  else if !walkOk then st
  else
    let tracks := fs.files.filterMap (fun f =>
      if is_supported f then extract_metadata f (mfOf f) else none)
    update_track_display
      { st with music_library := tracks, filtered_library := tracks }

/-! ### Liveness Monitor (`update_loop`, lines 1311–1323) -/

/-- Outcome of the `pygame.mixer.music.get_busy()` poll. -/
inductive BusyResult where
  | ok (b : Bool)
  | raised
deriving Repr, DecidableEq

/-- What one iteration of `update_loop` did: how many times
`next_track` was invoked, whether the `while True` loop survives the
iteration (an exception hits the bare `except: break`), and the state
afterwards. -/
structure TickOut where
  nextCalls : Nat
  keepRunning : Bool
  state : PlayerState
deriving Repr

/-- One iteration of the `update_loop` body.  The busy poll happens only
under `audio_enabled and PYGAME_AVAILABLE and self.playing`; a natural
end (`not get_busy()`) with `paused` clear triggers exactly one
`next_track()`. -/
def update_tick (st : PlayerState) (env : Env) (busy : BusyResult) : TickOut :=
  if st.audio_enabled && env.pygameAvailable && st.playing then
    match busy with
    | .raised => ⟨0, false, st⟩
    | .ok b =>
      if !b && !st.paused then
        match next_track st env with
        | some st' => ⟨1, true, st'⟩
        | none => ⟨1, false, st⟩
      else ⟨0, true, st⟩
  else ⟨0, true, st⟩

/-! ### Concrete states used by counterexamples and witnesses -/

/-- A sample track used in concrete counterexamples: no whitespace occurs
in any of its searchable fields. -/
def tAbc : Track :=
  { track := "01", title := "abc", artist := "def", album := "ghi",
    time := "3:45", year := "", genre := "", bitrate := "",
    path := "sample/abc.mp3" }

/-- Sample track "Alpha". -/
def trAlpha : Track :=
  { track := "01", title := "Alpha", artist := "A", album := "X",
    time := "3:45", year := "", genre := "", bitrate := "",
    path := "sample/alpha.mp3" }

/-- Sample track "Beta". -/
def trBeta : Track :=
  { track := "02", title := "Beta", artist := "B", album := "Y",
    time := "4:12", year := "", genre := "", bitrate := "",
    path := "sample/beta.mp3" }

/-- Sample track "Gamma". -/
def trGamma : Track :=
  { track := "03", title := "Gamma", artist := "C", album := "Z",
    time := "2:58", year := "", genre := "", bitrate := "",
    path := "sample/gamma.mp3" }

/-- A quiescent just-started state (no library, nothing playing). -/
def baseState : PlayerState :=
  { music_library := [], filtered_library := [], current_track := none,
    current_track_index := -1, playing := false, paused := false,
    volume := 80, audio_enabled := false }

/-- An environment in which every backend call succeeds. -/
def envAll : Env :=
  ⟨true, fun _ => true, fun _ => true, true, true⟩

/-- Three-track state, playing the last track, about to be searched. -/
def stThree : PlayerState :=
  { baseState with
    music_library := [trAlpha, trBeta, trGamma],
    filtered_library := [trAlpha, trBeta, trGamma],
    current_track := some trGamma, current_track_index := 2,
    playing := true, audio_enabled := true }

/-- One-track state whose current index is 0 (also the last index). -/
def stOne : PlayerState :=
  { baseState with
    music_library := [trAlpha], filtered_library := [trAlpha],
    current_track := some trAlpha, current_track_index := 0,
    playing := true, audio_enabled := true }

/-- Two-track state in which no track has been selected yet. -/
def stTwo : PlayerState :=
  { baseState with
    music_library := [trAlpha, trBeta],
    filtered_library := [trAlpha, trBeta],
    audio_enabled := true }

/-- Stopped state with a current track, no real audio backend
(simulated mode). -/
def stSimStopped : PlayerState :=
  { baseState with
    music_library := [trAlpha], filtered_library := [trAlpha],
    current_track := some trAlpha, current_track_index := 0 }

/-- Stopped state with a current track and a real audio backend. -/
def stRealStopped : PlayerState :=
  { stSimStopped with audio_enabled := true }

/-- A state that is currently playing with a real backend. -/
def stPlaying : PlayerState :=
  { baseState with
    music_library := [trAlpha, trBeta],
    filtered_library := [trAlpha, trBeta],
    current_track := some trAlpha, current_track_index := 0,
    playing := true, audio_enabled := true }

/-! ## Helper lemmas -/

theorem startsWithL_nil (l : List Char) : startsWithL l [] = true := by
  cases l <;> rfl

theorem hasSub_nil (l : List Char) : hasSub l [] = true := by
  cases l <;> simp [hasSub, startsWithL_nil]

theorem containsSub_empty (s : String) : containsSub s "" = true := by
  simpa [containsSub] using hasSub_nil s.data

theorem pad2_two_digits : ∀ n, n < 100 → (pad2 n).data.length = 2 := by decide

theorem update_track_display_music (st : PlayerState) :
    (update_track_display st).music_library = st.music_library := by
  unfold update_track_display
  cases st.current_track <;> rfl

theorem update_track_display_filtered (st : PlayerState) :
    (update_track_display st).filtered_library = st.filtered_library := by
  unfold update_track_display
  cases st.current_track <;> rfl

/-! ## Claim C1 -/

/-- C1 fails as stated: the source only short-circuits on the *empty*
query (Python falsiness), so a blank query of one space filters the
library by the literal space character, dropping every track without a
space in a searchable field. -/
theorem C1_counterexample :
    on_search_change [tAbc] " " = [] ∧ on_search_change [tAbc] " " ≠ [tAbc] := by
  decide

/-- C1 (amended): every track returned by `on_search_change` contains the
lowered query as a substring of a lowered searchable field (title, artist
or album — OR semantics), and the *empty* query returns the library
unchanged in order.  (A blank but non-empty query is treated as an
ordinary search term, not as the full-library case.) -/
theorem C1_filter_amended (L : List Track) (q : String) :
    (∀ t ∈ on_search_change L q,
        containsSub (pyLower t.title) (pyLower q) = true ∨
        containsSub (pyLower t.artist) (pyLower q) = true ∨
        containsSub (pyLower t.album) (pyLower q) = true) ∧
    on_search_change L "" = L := by
  constructor
  · intro t ht
    by_cases h : pyLower q = ""
    · exact Or.inl (by rw [h]; exact containsSub_empty _)
    · unfold on_search_change at ht
      rw [if_neg h] at ht
      have hm := (List.mem_filter.mp ht).2
      unfold matches_search at hm
      rcases Bool.or_eq_true_iff.mp hm with h1 | h2
      · rcases Bool.or_eq_true_iff.mp h1 with h1a | h1b
        · exact Or.inl h1a
        · exact Or.inr (Or.inl h1b)
      · exact Or.inr (Or.inr h2)
  · unfold on_search_change
    rw [if_pos (by decide)]

/-- Witness for `C1_filter_amended` at the concrete library `[tAbc]` with
the mixed-case query `"AB"`. -/
theorem C1_filter_amended_witness :
    (containsSub (pyLower tAbc.title) (pyLower "AB") = true ∨
     containsSub (pyLower tAbc.artist) (pyLower "AB") = true ∨
     containsSub (pyLower tAbc.album) (pyLower "AB") = true) ∧
    on_search_change [tAbc] "" = [tAbc] :=
  ⟨(C1_filter_amended [tAbc] "AB").1 tAbc (by decide),
   (C1_filter_amended [tAbc] "").2⟩

/-! ## Claim C4 -/

/-- C4 fails as stated: `str(timedelta(seconds=215))` is `"0:03:35"`, so
the `[2:7]` slice taken by `extract_metadata` is `"03:35"` — the minutes
are zero-padded to two digits as well, not rendered as `"3:35"`. -/
theorem C4_counterexample :
    format_time 215 = "03:35" ∧ format_time 215 ≠ "3:35" := by
  decide

/-- C4 (amended): for every duration below one hour, the extractor's
`time` field is the minutes zero-padded to two digits, a colon, and the
seconds zero-padded to two digits; in particular 215 seconds is formatted
as "03:35". -/
theorem C4_amended (d : Nat) (h : d < 3600) :
    format_time d = pad2 (d / 60) ++ ":" ++ pad2 (d % 60) := by
  have h86 : d < 86400 := by omega
  have hd0 : d / 86400 = 0 := Nat.div_eq_of_lt h86
  have hm0 : d % 86400 = d := Nat.mod_eq_of_lt h86
  have hh0 : d / 3600 = 0 := Nat.div_eq_of_lt h
  have h36 : d % 3600 = d := Nat.mod_eq_of_lt h
  have hP : (pad2 (d / 60)).data.length = 2 :=
    pad2_two_digits _ (by omega)
  have hS : (pad2 (d % 60)).data.length = 2 :=
    pad2_two_digits _ (by omega)
  apply String.ext
  simp only [format_time, timedelta_str, pySlice, hd0, hm0, hh0, h36,
    if_true, eq_self_iff_true]
  have h0 : (toString (0 : Nat)) = "0" := rfl
  rw [h0]
  simp only [String.data_append]
  simp only [List.append_assoc, List.cons_append, List.nil_append,
    List.drop_succ_cons, List.drop_zero]
  apply List.take_of_length_le
  simp [hP, hS]

/-- Witness for `C4_amended` at the spec's own example duration of 215
seconds. -/
theorem C4_amended_witness :
    215 < 3600 ∧ format_time 215 = pad2 (215 / 60) ++ ":" ++ pad2 (215 % 60) :=
  ⟨by decide, C4_amended 215 (by decide)⟩

/-! ## Claim C5 -/

/-- C5: `extract_metadata` is total — every outcome of the foreign tag
reader, exceptions included, is mapped to a value instead of propagating —
and whenever the file yields no readable tags (mutagen absent, `MF`
raising, or `MF` returning `None`), the result is exactly the
filename-derived record: title = filename stem, artist "Unknown Artist",
album "Unknown Album", time "0:00". -/
theorem C5_extract_fallback (file_path : String) (mf : MFResult)
    (h : mf = .noFile ∨ mf = .innerRaised ∨ mf = .unavailable) :
    extract_metadata file_path mf = some (fallback_track file_path) ∧
    (fallback_track file_path).title = stem_of (basename file_path) ∧
    (fallback_track file_path).artist = "Unknown Artist" ∧
    (fallback_track file_path).album = "Unknown Album" ∧
    (fallback_track file_path).time = "0:00" := by
  rcases h with rfl | rfl | rfl <;>
    exact ⟨rfl, rfl, rfl, rfl, rfl⟩

/-- Witness for `C5_extract_fallback`: a concrete file whose tags are
unreadable (`MF` returned `None`). -/
theorem C5_extract_fallback_witness :
    extract_metadata "music/song.mp3" MFResult.noFile =
      some (fallback_track "music/song.mp3") ∧
    (fallback_track "music/song.mp3").title = stem_of (basename "music/song.mp3") ∧
    (fallback_track "music/song.mp3").artist = "Unknown Artist" ∧
    (fallback_track "music/song.mp3").album = "Unknown Album" ∧
    (fallback_track "music/song.mp3").time = "0:00" :=
  C5_extract_fallback "music/song.mp3" MFResult.noFile (Or.inl rfl)

/-! ## Claim C6 -/

/-- C6 fails as stated: `change_volume` stores `int(value)` with no
clamp, so a volume of 150 is stored as 150 (not 100) and −5 as −5
(not 0). -/
theorem C6_counterexample :
    (change_volume baseState 150).volume = 150 ∧
    (change_volume baseState 150).volume ≠ 100 ∧
    (change_volume baseState (-5)).volume = -5 ∧
    (change_volume baseState (-5)).volume ≠ 0 := by
  decide

/-- C6 (amended): `change_volume(v)` records exactly `v` — the source
performs no clamping (the 0..100 range is enforced only by the Scale
widget that produces the value) — and is independent of playback status:
the playing/paused flags and the current track are untouched. -/
theorem C6_volume_amended (st : PlayerState) (v : Int) :
    (change_volume st v).volume = v ∧
    (change_volume st v).playing = st.playing ∧
    (change_volume st v).paused = st.paused ∧
    (change_volume st v).current_track = st.current_track :=
  ⟨rfl, rfl, rfl, rfl⟩

/-! ## Navigation helper lemmas -/

theorem play_track_current (st : PlayerState) (t : Track) (env : Env) :
    (play_track st (some t) env).current_track = some t ∧
    (play_track st (some t) env).current_track_index = st.current_track_index ∧
    (play_track st (some t) env).filtered_library = st.filtered_library ∧
    (play_track st (some t) env).music_library = st.music_library := by
  unfold play_track
  dsimp only
  split_ifs <;> exact ⟨rfl, rfl, rfl, rfl⟩

theorem play_track_plays (st : PlayerState) (t : Track) (env : Env)
    (h : env.loadPlayOk t.path = true ∨ env.fileExists t.path = false) :
    (play_track st (some t) env).playing = true ∧
    (play_track st (some t) env).paused = false := by
  unfold play_track
  dsimp only
  split_ifs with h1 h2
  · exact ⟨rfl, rfl⟩
  · rcases h with h | h
    · exact absurd h h2
    · simp_all
  · exact ⟨rfl, rfl⟩

/-! ## Claim C2 -/

/-- C2: with a non-empty filtered view, `next_track` from the last index
wraps to index 0 and `previous_track` from index 0 wraps to the last
index; on an empty filtered view both return the state unchanged. -/
theorem C2_wraparound (st : PlayerState) (env : Env) :
    (st.filtered_library ≠ [] →
      st.current_track_index = (st.filtered_library.length : Int) - 1 →
      ∃ st', next_track st env = some st' ∧ st'.current_track_index = 0) ∧
    (st.filtered_library ≠ [] →
      st.current_track_index = 0 →
      ∃ st', previous_track st env = some st' ∧
        st'.current_track_index = (st.filtered_library.length : Int) - 1) ∧
    (st.filtered_library = [] →
      next_track st env = some st ∧ previous_track st env = some st) := by
  refine ⟨?_, ?_, ?_⟩
  · intro hne hidx
    obtain ⟨a, l, hL⟩ := List.exists_cons_of_ne_nil hne
    unfold next_track
    rw [hidx, hL]
    simp only [List.isEmpty_cons, Bool.false_eq_true, if_false,
      if_neg (lt_irrefl ((((a :: l).length : Int)) - 1))]
    have hget : pyGet (a :: l) 0 = some a := by
      unfold pyGet
      rw [if_pos le_rfl]
      simp
    simp only [hget]
    exact ⟨_, rfl, (play_track_current _ a env).2.1⟩
  · intro hne hidx
    obtain ⟨a, l, hL⟩ := List.exists_cons_of_ne_nil hne
    unfold previous_track
    rw [hidx, hL]
    simp only [List.isEmpty_cons, Bool.false_eq_true, if_false,
      if_neg (lt_irrefl (0 : Int))]
    have hnn : (0 : Int) ≤ ((a :: l).length : Int) - 1 := by
      simp [List.length_cons]
    have htoNat : (((a :: l).length : Int) - 1).toNat = l.length := by
      simp [List.length_cons]
    have hlt : l.length < (a :: l).length := by simp [List.length_cons]
    have hget : pyGet (a :: l) (((a :: l).length : Int) - 1) =
        some ((a :: l)[l.length]) := by
      unfold pyGet
      rw [if_pos hnn, htoNat]
      exact List.getElem?_eq_getElem hlt
    simp only [hget]
    exact ⟨_, rfl, (play_track_current _ _ env).2.1⟩
  · intro hL
    constructor
    · unfold next_track
      rw [hL]
      rfl
    · unfold previous_track
      rw [hL]
      rfl

/-- Witness for `C2_wraparound`: a one-track view whose index 0 is also
the last index, and the empty view. -/
theorem C2_wraparound_witness :
    (∃ st', next_track stOne envAll = some st' ∧ st'.current_track_index = 0) ∧
    (∃ st', previous_track stOne envAll = some st' ∧
      st'.current_track_index = (stOne.filtered_library.length : Int) - 1) ∧
    (next_track baseState envAll = some baseState ∧
     previous_track baseState envAll = some baseState) :=
  ⟨(C2_wraparound stOne envAll).1 (by decide) (by decide),
   (C2_wraparound stOne envAll).2.1 (by decide) (by decide),
   (C2_wraparound baseState envAll).2.2 rfl⟩

/-! ## Claim C10 -/

/-- C10: on a non-empty filtered view with the initial sentinel index −1
(nothing selected or played yet), `next_track` plays the track at
index 0, `previous_track` plays the track at the last index, and both
leave `current_track_index` in range. -/
theorem C10_unset_index_nav (st : PlayerState) (env : Env)
    (hne : st.filtered_library ≠ []) (hidx : st.current_track_index = -1) :
    (∃ st', next_track st env = some st' ∧
      st'.current_track_index = 0 ∧
      st'.current_track = st.filtered_library.head? ∧
      0 ≤ st'.current_track_index ∧
      st'.current_track_index < (st.filtered_library.length : Int)) ∧
    (∃ st', previous_track st env = some st' ∧
      st'.current_track_index = (st.filtered_library.length : Int) - 1 ∧
      st'.current_track = st.filtered_library.getLast? ∧
      0 ≤ st'.current_track_index ∧
      st'.current_track_index < (st.filtered_library.length : Int)) := by
  obtain ⟨a, l, hL⟩ := List.exists_cons_of_ne_nil hne
  constructor
  · unfold next_track
    rw [hidx, hL]
    have hc : (-1 : Int) < ((a :: l).length : Int) - 1 := by
      simp [List.length_cons]
      omega
    simp only [List.isEmpty_cons, Bool.false_eq_true, if_false, if_pos hc,
      neg_add_cancel]
    have hget : pyGet (a :: l) 0 = some a := by
      unfold pyGet
      rw [if_pos le_rfl]
      simp
    simp only [hget]
    refine ⟨_, rfl, (play_track_current _ a env).2.1, ?_, ?_, ?_⟩
    · rw [(play_track_current _ a env).1]
      rfl
    · rw [(play_track_current _ a env).2.1]
    · rw [(play_track_current _ a env).2.1]
      simp [List.length_cons]
  · unfold previous_track
    rw [hidx, hL]
    have hc : ¬ ((-1 : Int) > 0) := by decide
    simp only [List.isEmpty_cons, Bool.false_eq_true, if_false, if_neg hc]
    have hnn : (0 : Int) ≤ ((a :: l).length : Int) - 1 := by
      simp [List.length_cons]
    have htoNat : (((a :: l).length : Int) - 1).toNat = l.length := by
      simp [List.length_cons]
    have hlt : l.length < (a :: l).length := by simp [List.length_cons]
    have hget : pyGet (a :: l) (((a :: l).length : Int) - 1) =
        some ((a :: l)[l.length]) := by
      unfold pyGet
      rw [if_pos hnn, htoNat]
      exact List.getElem?_eq_getElem hlt
    simp only [hget]
    refine ⟨_, rfl, (play_track_current _ _ env).2.1, ?_, ?_, ?_⟩
    · rw [(play_track_current _ _ env).1]
      rw [List.getLast?_eq_getElem?]
      have h1 : (a :: l).length - 1 = l.length := by simp
      rw [h1, List.getElem?_eq_getElem hlt]
    · rw [(play_track_current _ _ env).2.1]
      exact hnn
    · rw [(play_track_current _ _ env).2.1]
      simp [List.length_cons]

/-- Witness for `C10_unset_index_nav`: the fresh two-track state whose
index is still −1. -/
theorem C10_unset_index_nav_witness :
    (∃ st', next_track stTwo envAll = some st' ∧
      st'.current_track_index = 0 ∧
      st'.current_track = stTwo.filtered_library.head? ∧
      0 ≤ st'.current_track_index ∧
      st'.current_track_index < (stTwo.filtered_library.length : Int)) ∧
    (∃ st', previous_track stTwo envAll = some st' ∧
      st'.current_track_index = (stTwo.filtered_library.length : Int) - 1 ∧
      st'.current_track = stTwo.filtered_library.getLast? ∧
      0 ≤ st'.current_track_index ∧
      st'.current_track_index < (stTwo.filtered_library.length : Int)) :=
  C10_unset_index_nav stTwo envAll (by decide) (by decide)

/-! ## Claim C7 -/

/-- C7 fails as stated for simulated mode: with no real audio backend,
`toggle_playback` on a Stopped state with a current track only clears the
`paused` flag and prints "Playing (Simulated)" — it neither sets the
`playing` flag nor re-invokes `play_track`, so the status stays
Stopped. -/
theorem C7_counterexample :
    status stSimStopped = Status.Stopped ∧
    stSimStopped.current_track = some trAlpha ∧
    stSimStopped.audio_enabled = false ∧
    (toggle_playback stSimStopped envAll).playing = false ∧
    status (toggle_playback stSimStopped envAll) ≠ Status.Playing := by
  decide

/-- C7 (amended): `toggle_playback` on a Stopped state with a
previously-set current track replays that same track (status → Playing,
via a fresh `play_track`, not a resume) when a real audio backend is in
use and the backend load/play succeeds or the file is missing (simulation
branch inside `play_track`); in simulated mode (no real backend) the
toggle leaves the `playing` flag false and the current track unchanged,
so the status does not become Playing. -/
theorem C7_toggle_stopped (st : PlayerState) (env : Env) (ct : Track)
    (hct : st.current_track = some ct)
    (hplay : st.playing = false) (hpause : st.paused = false) :
    ((st.audio_enabled = true ∧ env.pygameAvailable = true ∧
      (env.loadPlayOk ct.path = true ∨ env.fileExists ct.path = false)) →
      (toggle_playback st env).playing = true ∧
      (toggle_playback st env).paused = false ∧
      (toggle_playback st env).current_track = some ct) ∧
    (st.audio_enabled = false →
      (toggle_playback st env).playing = false ∧
      (toggle_playback st env).current_track = some ct) := by
  constructor
  · rintro ⟨ha, hp, hok⟩
    have h1 : (st.audio_enabled && env.pygameAvailable) = true := by
      rw [ha, hp]; rfl
    have h2 : (st.playing && !st.paused) = false := by rw [hplay]; rfl
    simp only [toggle_playback, hct, h1, h2, eq_self_iff_true,
      if_true, Bool.false_eq_true, if_false]
    rw [hpause]
    simp only [Bool.false_eq_true, if_false]
    exact ⟨(play_track_plays st ct env hok).1, (play_track_plays st ct env hok).2,
      (play_track_current st ct env).1⟩
  · intro ha
    have h1 : (st.audio_enabled && env.pygameAvailable) = false := by
      rw [ha]; rfl
    have h2 : (st.playing && !st.paused) = false := by rw [hplay]; rfl
    simp only [toggle_playback, hct, h1, h2, Bool.false_eq_true, if_false]
    exact ⟨hplay, by simp⟩

/-- Witness for `C7_toggle_stopped`: the concrete Stopped states with and
without a real audio backend. -/
theorem C7_toggle_stopped_witness :
    ((toggle_playback stRealStopped envAll).playing = true ∧
     (toggle_playback stRealStopped envAll).paused = false ∧
     (toggle_playback stRealStopped envAll).current_track = some trAlpha) ∧
    ((toggle_playback stSimStopped envAll).playing = false ∧
     (toggle_playback stSimStopped envAll).current_track = some trAlpha) :=
  ⟨(C7_toggle_stopped stRealStopped envAll trAlpha rfl rfl rfl).1
      ⟨rfl, rfl, Or.inl rfl⟩,
   (C7_toggle_stopped stSimStopped envAll trAlpha rfl rfl rfl).2 rfl⟩

/-! ## Claim C3 -/

/-- C3 names a bug the source actually has: `update_track_display` only
overwrites `current_track_index` when the playing track's path is found
in the new view; when the search filters the current track out, the stale
numeric index survives the recomputation (here: index 2 against a
1-element view) instead of becoming a "not found" value, and
`next_track`/`previous_track` will happily use it. -/
theorem C3_stale_index_kept :
    (on_search_change_full stThree "alpha").filtered_library = [trAlpha] ∧
    (on_search_change_full stThree "alpha").current_track = some trGamma ∧
    (on_search_change_full stThree "alpha").current_track_index = 2 ∧
    ¬ ((on_search_change_full stThree "alpha").current_track_index <
        ((on_search_change_full stThree "alpha").filtered_library.length : Int)) := by
  decide

/-! ## Claim C8 -/

/-- C8: scanning a non-existent root leaves the whole state untouched
(a no-op, not an error — in particular no tracks are produced), and a
file whose extraction fails (`extract_metadata` returning `None`) is
skipped: deleting it from the walk changes nothing about the resulting
library.  The embedding of `scan_folder` is total, so no exception
escapes the scanner boundary. -/
theorem C8_scan_safe (st : PlayerState) (fs : FileSys)
    (mfOf : String → MFResult) (walkOk : Bool) :
    (fs.root_exists = false → scan_folder st fs mfOf walkOk = st) ∧
    (∀ l1 f l2, fs.files = l1 ++ f :: l2 →
      extract_metadata f (mfOf f) = none →
      (scan_folder st fs mfOf walkOk).music_library =
        (scan_folder st ⟨fs.root_exists, l1 ++ l2⟩ mfOf walkOk).music_library) := by
  constructor
  · intro h
    unfold scan_folder
    rw [h]
    rfl
  · intro l1 f l2 hfiles hnone
    unfold scan_folder
    by_cases hroot : fs.root_exists
    · by_cases hwalk : walkOk
      · simp only [hroot, hwalk, Bool.not_true, Bool.false_eq_true, if_false]
        rw [update_track_display_music, update_track_display_music]
        simp only [hfiles]
        rw [List.filterMap_append, List.filterMap_append]
        congr 1
        rw [List.filterMap_cons]
        have : (if is_supported f then extract_metadata f (mfOf f) else none)
            = none := by
          by_cases hs : is_supported f
          · rw [if_pos hs, hnone]
          · rw [if_neg hs]
        rw [this]
      · simp [hroot, hwalk]
    · simp [hroot]

/-- Witness for `C8_scan_safe`: a missing root, and a walk in which the
middle file's extraction fails. -/
theorem C8_scan_safe_witness :
    (scan_folder baseState ⟨false, ["a.mp3"]⟩ (fun _ => MFResult.noFile) true
      = baseState) ∧
    ((scan_folder stPlaying ⟨true, ["a.mp3", "bad.mp3", "c.mp3"]⟩
        (fun f => if f == "bad.mp3" then MFResult.outerRaised else MFResult.noFile)
        true).music_library =
      (scan_folder stPlaying ⟨true, ["a.mp3", "c.mp3"]⟩
        (fun f => if f == "bad.mp3" then MFResult.outerRaised else MFResult.noFile)
        true).music_library) :=
  ⟨(C8_scan_safe baseState ⟨false, ["a.mp3"]⟩ (fun _ => MFResult.noFile) true).1 rfl,
   (C8_scan_safe stPlaying ⟨true, ["a.mp3", "bad.mp3", "c.mp3"]⟩
      (fun f => if f == "bad.mp3" then MFResult.outerRaised else MFResult.noFile)
      true).2 ["a.mp3"] "bad.mp3" ["c.mp3"] rfl (by decide)⟩

/-! ## Claim C9 -/

/-- C9: with a real backend, one `update_loop` iteration triggers
`next_track` exactly once if and only if the status is Playing and the
busy poll reports not busy (the status being Playing already excludes
Paused); never more than once per tick; and a raised busy poll makes the
loop break out gracefully with no `next_track` call. -/
theorem C9_tick_advance (st : PlayerState) (env : Env) (b : Bool)
    (haudio : st.audio_enabled = true) (hpy : env.pygameAvailable = true) :
    ((update_tick st env (.ok b)).nextCalls = 1 ↔
      (status st = Status.Playing ∧ b = false)) ∧
    (st.playing = true →
      (update_tick st env .raised).keepRunning = false ∧
      (update_tick st env .raised).nextCalls = 0) ∧
    (∀ busy, (update_tick st env busy).nextCalls ≤ 1) := by
  have hcond : (st.audio_enabled && env.pygameAvailable && st.playing)
      = st.playing := by
    rw [haudio, hpy]
    rfl
  refine ⟨?_, ?_, ?_⟩
  · unfold update_tick
    rw [hcond]
    cases hp : st.playing
    · cases hps : st.paused <;> simp [status, hp, hps]
    · cases hb : b
      · cases hps : st.paused
        · simp only [Bool.not_false, Bool.and_self, if_true]
          cases hnt : next_track st env <;>
            simp [status, hp, hps]
        · simp [status, hp, hps]
      · simp [status, hp]
  · intro hp
    unfold update_tick
    rw [hcond, hp]
    exact ⟨rfl, rfl⟩
  · intro busy
    unfold update_tick
    rw [hcond]
    cases hp : st.playing
    · simp
    · cases busy
      · rename_i bb
        simp only [eq_self_iff_true, if_true]
        by_cases hbb : (!bb && !st.paused) = true
        · rw [if_pos hbb]
          cases hnt : next_track st env <;> simp
        · rw [if_neg hbb]
          simp
      · simp

/-- Witness for `C9_tick_advance`: the concrete playing state; the poll
returning "not busy" triggers exactly one advance. -/
theorem C9_tick_advance_witness :
    ((update_tick stPlaying envAll (.ok false)).nextCalls = 1 ↔
      (status stPlaying = Status.Playing ∧ false = false)) ∧
    (stPlaying.playing = true →
      (update_tick stPlaying envAll .raised).keepRunning = false ∧
      (update_tick stPlaying envAll .raised).nextCalls = 0) ∧
    (∀ busy, (update_tick stPlaying envAll busy).nextCalls ≤ 1) :=
  C9_tick_advance stPlaying envAll false rfl rfl
